import Mathlib

/-!
Verification of the docling Flask app orchestration layer (src/app.py).

The repository is an orchestration layer around an external document
conversion library: an HTTP endpoint stages uploaded files, invokes
`convert_documents`, which configures the external converter, converts the
staged files and calls `export_selected_formats` (the Exporter) and an
inline media-extraction loop (the Media Extractor) on each conversion
result.  We embed those functions shallowly: filesystem writes become
event traces, the external converter becomes an oracle parameter, Python
exceptions become `Except`, and the str/Path distinction of the Python
values is kept explicit because the code depends on it.
-/

namespace DoclingApp

/-- Serialized content written by the Exporter, tagging the serialization
parameters used at each `fp.write` site of `export_selected_formats`. -/
inductive Serialized where
  | markdown (s : String)
  | text (s : String)
  | jsonDump (dict : String) (indent : Nat)
  | yamlDump (dict : String) (defaultFlowStyle : Bool) (allowUnicode : Bool)
deriving DecidableEq, Repr

/-- Kind of a document element yielded by `result.document.iterate_items()`;
the code only inspects `isinstance(element, TableItem)` and
`isinstance(element, PictureItem)`. -/
inductive ElemKind where
  | tableItem
  | pictureItem
  | other
deriving DecidableEq, Repr

/-- A document element: its kind and the result of
`element.get_image(result.document)` (`none` models Python `None`). -/
structure Element where
  kind : ElemKind
  image : Option String
deriving DecidableEq, Repr

/-- The converted-document object of a conversion result: the three export
methods used by the Exporter and the element sequence used by the Media
Extractor. -/
structure DocModel where
  mdExport : String
  txtExport : String
  dictExport : String
  elements : List Element
deriving DecidableEq, Repr

/-- A conversion result as used by the code: `result.input.file.stem`
and `result.document`. -/
structure ConvResult where
  fileStem : String
  doc : DocModel
deriving DecidableEq, Repr

/-- The function `export_selected_formats(result, output_path, formats)` of src/app.py,
as the list of (file name, serialized content) pairs it writes into the
output directory, in program order.  Each `if "<tag>" in formats:` block
becomes one conditional singleton. -/
def export_selected_formats (result : ConvResult) (formats : List String) :
    List (String × Serialized) :=
  let file_stem := result.fileStem
  (if "md" ∈ formats then
    [(file_stem ++ ".md", Serialized.markdown result.doc.mdExport)] else [])
  ++ (if "txt" ∈ formats then
    [(file_stem ++ ".txt", Serialized.text result.doc.txtExport)] else [])
  ++ (if "json" ∈ formats then
    [(file_stem ++ ".json", Serialized.jsonDump result.doc.dictExport 4)] else [])
  ++ (if "yaml" ∈ formats then
    [(file_stem ++ ".yaml", Serialized.yamlDump result.doc.dictExport false true)] else [])

/-! ## Media Extractor

The image-saving loop of `convert_documents` (src/app.py lines 104-147):
per-document state is `table_counter`, `picture_counter`,
`found_table_or_picture` and the trace of filesystem/log effects. -/

/-- An effect of the media loop: a PNG written via
`image.save(fp, "PNG")`, or a printed warning. -/
inductive MediaEvent where
  | saved (filename : String) (png : String)
  | warning (msg : String)
deriving DecidableEq, Repr

/-- The mutable state of the media loop over one document. -/
structure MediaState where
  table_counter : Nat
  picture_counter : Nat
  found_table_or_picture : Bool
  events : List MediaEvent
deriving DecidableEq, Repr

/-- State at the top of the loop: both counters start at 0,
`found_table_or_picture = False`, no effects yet. -/
def initMediaState : MediaState :=
  { table_counter := 0, picture_counter := 0,
    found_table_or_picture := false, events := [] }

/-- The warning printed when a table yields no image. -/
def tableWarning (tc : Nat) (doc_filename : String) : String :=
  "Warning: Table " ++ toString tc ++ " in " ++ doc_filename
    ++ " could not be converted to image."

/-- The warning printed when a picture yields no image. -/
def pictureWarning (pc : Nat) (doc_filename : String) : String :=
  "Warning: Picture " ++ toString pc ++ " in " ++ doc_filename
    ++ " could not be converted to image."

/-- One iteration of `for element, _level in result.document.iterate_items()`:
two independent `isinstance` branches, each incrementing its counter before
checking whether `get_image` returned an image. -/
def processElement (doc_filename : String) (image_dir : String)
    (st : MediaState) (element : Element) : MediaState :=
  let st₁ :=
    if element.kind = ElemKind.tableItem then
      let tc := st.table_counter + 1
      let element_image_filename :=
        image_dir ++ "/" ++ doc_filename ++ "-table-" ++ toString tc ++ ".png"
      match element.image with
      | some image =>
          { st with
              table_counter := tc
              found_table_or_picture := true
              events := st.events ++ [MediaEvent.saved element_image_filename image] }
      | none =>
          { st with
              table_counter := tc
              found_table_or_picture := true
              events := st.events ++ [MediaEvent.warning (tableWarning tc doc_filename)] }
    else st
  if element.kind = ElemKind.pictureItem then
    let pc := st₁.picture_counter + 1
    let element_image_filename :=
      image_dir ++ "/" ++ doc_filename ++ "-picture-" ++ toString pc ++ ".png"
    match element.image with
    | some image =>
        { st₁ with
            picture_counter := pc
            found_table_or_picture := true
            events := st₁.events ++ [MediaEvent.saved element_image_filename image] }
    | none =>
        { st₁ with
            picture_counter := pc
            found_table_or_picture := true
            events := st₁.events ++ [MediaEvent.warning (pictureWarning pc doc_filename)] }
  else st₁

/-- The whole media loop over the elements of the document, in document order. -/
def runMedia (doc_filename image_dir : String) (st : MediaState) :
    List Element → MediaState
  | [] => st
  | e :: es => runMedia doc_filename image_dir
      (processElement doc_filename image_dir st e) es

/-- Test `tableElem e` : the element is a `TableItem`. -/
def tableElem (e : Element) : Bool := decide (e.kind = ElemKind.tableItem)

/-- Test `pictureElem e` : the element is a `PictureItem`. -/
def pictureElem (e : Element) : Bool := decide (e.kind = ElemKind.pictureItem)

/-- A table or picture element whose rendering yielded an image. -/
def savedElem (e : Element) : Bool :=
  (tableElem e || pictureElem e) && e.image.isSome

/-- A table or picture element whose rendering yielded no image. -/
def skippedElem (e : Element) : Bool :=
  (tableElem e || pictureElem e) && e.image.isNone

/-- Whether a media event is a PNG write. -/
def isSavedEvent : MediaEvent → Bool
  | MediaEvent.saved _ _ => true
  | MediaEvent.warning _ => false

/-- Whether a media event is a printed warning. -/
def isWarningEvent : MediaEvent → Bool
  | MediaEvent.saved _ _ => false
  | MediaEvent.warning _ => true

/-- The events the loop contributes for one element, given the counter
values reached before that element. -/
def headEvents (doc_filename image_dir : String) (tc pc : Nat)
    (e : Element) : List MediaEvent :=
  (if tableElem e then
    [match e.image with
     | some image => MediaEvent.saved
         (image_dir ++ "/" ++ doc_filename ++ "-table-"
           ++ toString (tc + 1) ++ ".png") image
     | none => MediaEvent.warning (tableWarning (tc + 1) doc_filename)]
   else [])
  ++ (if pictureElem e then
    [match e.image with
     | some image => MediaEvent.saved
         (image_dir ++ "/" ++ doc_filename ++ "-picture-"
           ++ toString (pc + 1) ++ ".png") image
     | none => MediaEvent.warning (pictureWarning (pc + 1) doc_filename)]
   else [])

/-- Specification of the events contributed by the element at position `i`,
in the positional terms of the claim: the counter value used for an element of a
kind is the number of elements of that kind among the first `i + 1`
elements (a 1-based counter in document order, failures included). -/
def specEventsAt (doc_filename image_dir : String) (tc pc : Nat)
    (es : List Element) (i : Nat) : List MediaEvent :=
  match es[i]? with
  | none => []
  | some e =>
    let tcount := tc + (es.take (i + 1)).countP tableElem
    let pcount := pc + (es.take (i + 1)).countP pictureElem
    (if tableElem e then
      [match e.image with
       | some image => MediaEvent.saved
           (image_dir ++ "/" ++ doc_filename ++ "-table-"
             ++ toString tcount ++ ".png") image
       | none => MediaEvent.warning (tableWarning tcount doc_filename)]
     else [])
    ++ (if pictureElem e then
      [match e.image with
       | some image => MediaEvent.saved
           (image_dir ++ "/" ++ doc_filename ++ "-picture-"
             ++ toString pcount ++ ".png") image
       | none => MediaEvent.warning (pictureWarning pcount doc_filename)]
     else [])

/-- A timestamp at the granularity the code uses: `datetime.now()` is only
ever observed through `strftime("%Y-%m-%d_%H%M%S")`, so sub-second
precision is not representable in the subdirectory name. -/
structure DateTime where
  year : Nat
  month : Nat
  day : Nat
  hour : Nat
  minute : Nat
  second : Nat
deriving DecidableEq, Repr

/-- Zero-padding to two digits, as strftime renders `%m %d %H %M %S`. -/
def pad2 (n : Nat) : String :=
  if n < 10 then "0" ++ toString n else toString n

/-- Zero-padding to four digits, as strftime renders `%Y`. -/
def pad4 (n : Nat) : String :=
  if n < 10 then "000" ++ toString n
  else if n < 100 then "00" ++ toString n
  else if n < 1000 then "0" ++ toString n
  else toString n

/-- The `%Y-%m-%d_%H%M%S` part of the subdirectory name. -/
def timestampPart (now : DateTime) : String :=
  pad4 now.year ++ "-" ++ pad2 now.month ++ "-" ++ pad2 now.day ++ "_"
    ++ pad2 now.hour ++ pad2 now.minute ++ pad2 now.second

/-- The call at src/app.py line 109, strftime applied to the format string
built from the stem and the pattern percent-Y-m-d_HMS:
the image subdirectory name embeds the document stem and the
formatted conversion timestamp.  (The stem is taken verbatim; stems
containing strftime percent directives are outside the model.) -/
def image_subdir (doc_filename : String) (now : DateTime) : String :=
  doc_filename ++ "_" ++ timestampPart now

/-! ## Converter configuration

The `DocumentConverter(...)` construction of `convert_documents`
(src/app.py lines 64-83): a static table from input format to
(pipeline class, backend, optional explicit pipeline options). -/

/-- The eight members of `allowed_formats`. -/
inductive InputFormat where
  | xlsx | pdf | image | docx | html | pptx | asciidoc | md
deriving DecidableEq, Repr

/-- The two pipeline classes the code references. -/
inductive PipelineCls where
  | simplePipeline
  | standardPdfPipeline
deriving DecidableEq, Repr

/-- The backend classes the code imports and binds. -/
inductive BackendCls where
  | msExcelDocumentBackend
  | msWordDocumentBackend
  | msPowerpointDocumentBackend
  | markdownDocumentBackend
  | asciiDocBackend
  | htmlDocumentBackend
  | doclingParseDocumentBackend
  | pyPdfiumDocumentBackend
deriving DecidableEq, Repr

/-- The three `PdfPipelineOptions` fields the code sets (lines 66-69).
The scale is the Python float `2.0`, exactly representable; it is
modelled as a rational. -/
structure PdfPipelineOptionsM where
  images_scale : ℚ
  generate_page_images : Bool
  generate_picture_images : Bool
deriving DecidableEq, Repr

/-- The `pipeline_options` object built at lines 66-69. -/
def pipeline_options : PdfPipelineOptionsM :=
  { images_scale := 2
    generate_page_images := true
    generate_picture_images := true }

/-- A `FormatOption` value: pipeline class, backend, and the explicit
`pipeline_options` argument when one is passed (`none` where the code
passes no options, leaving the external library defaults in force). -/
structure FormatOptionM where
  pipeline_cls : PipelineCls
  backend : BackendCls
  pipeline_options_arg : Option PdfPipelineOptionsM
deriving DecidableEq, Repr

/-- Modelled from the spec: `PdfFormatOption(pipeline_options=po)`.  The
defaults of the external `PdfFormatOption` (not part of this
repository) bind the standard paginated PDF pipeline and the
docling-parse backend; the code passes only `pipeline_options`. -/
def PdfFormatOption (po : PdfPipelineOptionsM) : FormatOptionM :=
  { pipeline_cls := PipelineCls.standardPdfPipeline
    backend := BackendCls.doclingParseDocumentBackend
    pipeline_options_arg := some po }

/-- The `format_options` dictionary (lines 73-82), entry by entry. -/
def format_options : InputFormat → FormatOptionM
  | InputFormat.xlsx =>
      { pipeline_cls := PipelineCls.simplePipeline
        backend := BackendCls.msExcelDocumentBackend
        pipeline_options_arg := none }
  | InputFormat.docx =>
      { pipeline_cls := PipelineCls.simplePipeline
        backend := BackendCls.msWordDocumentBackend
        pipeline_options_arg := none }
  | InputFormat.pptx =>
      { pipeline_cls := PipelineCls.simplePipeline
        backend := BackendCls.msPowerpointDocumentBackend
        pipeline_options_arg := none }
  | InputFormat.md =>
      { pipeline_cls := PipelineCls.simplePipeline
        backend := BackendCls.markdownDocumentBackend
        pipeline_options_arg := none }
  | InputFormat.asciidoc =>
      { pipeline_cls := PipelineCls.simplePipeline
        backend := BackendCls.asciiDocBackend
        pipeline_options_arg := none }
  | InputFormat.html =>
      { pipeline_cls := PipelineCls.simplePipeline
        backend := BackendCls.htmlDocumentBackend
        pipeline_options_arg := none }
  | InputFormat.image =>
      { pipeline_cls := PipelineCls.standardPdfPipeline
        backend := BackendCls.doclingParseDocumentBackend
        pipeline_options_arg := none }
  | InputFormat.pdf => PdfFormatOption pipeline_options

/-- The `allowed_formats` list (line 72). -/
def allowed_formats : List InputFormat :=
  [InputFormat.xlsx, InputFormat.pdf, InputFormat.image, InputFormat.docx,
   InputFormat.html, InputFormat.pptx, InputFormat.asciidoc, InputFormat.md]

/-! ## `convert_documents` and the HTTP layer

`convert` passes the form field `output_path` to `convert_documents` as a
plain `str` (src/app.py line 161/177); `convert_documents` immediately
calls the `pathlib.Path`-only operations `.exists()`, `.mkdir()` and the
`/` join on it (lines 87-88, 110).  The embedding keeps the str/Path
distinction, models exceptions with `Except`/`Option`, the filesystem
`exists` test and `os.walk` as oracles, `datetime.now()` as a clock
indexed by the number of calls made so far, and filesystem writes as an
event trace. -/

/-- A Python value that is either a `str` or a `pathlib.Path`. -/
inductive PyPathVal where
  | str (s : String)
  | path (s : String)
deriving DecidableEq, Repr

/-- The Python exceptions the model distinguishes. -/
inductive PyErr where
  | attributeError (msg : String)
deriving DecidableEq, Repr

/-- Rendering `str(e)` for an exception. -/
def pyErrMsg : PyErr → String
  | PyErr.attributeError m => m

/-- Attribute call `output_path.exists()`: on a `str` this raises
`AttributeError: str object has no attribute exists`; on a `Path` it
consults the filesystem oracle. -/
def pathExists (fs : String → Bool) : PyPathVal → Except PyErr Bool
  | PyPathVal.str _ =>
      Except.error (PyErr.attributeError "str object has no attribute exists")
  | PyPathVal.path p => Except.ok (fs p)

/-- Join `output_path / sub`: the `/` join is `Path`-only; on a `str` the
operation fails (Python raises `TypeError`; the model folds all such
attribute/operator failures into one error kind). -/
def pathJoin : PyPathVal → String → Except PyErr PyPathVal
  | PyPathVal.str _, _ =>
      Except.error (PyErr.attributeError "unsupported operand types for str")
  | PyPathVal.path p, sub => Except.ok (PyPathVal.path (p ++ "/" ++ sub))

/-- Conversion `Path(v)`: both `Path(str)` and `Path(Path)` succeed, yielding the
underlying path string (used by `export_selected_formats`, which converts
its `output_path` argument itself). -/
def pathOf : PyPathVal → String
  | PyPathVal.str s => s
  | PyPathVal.path s => s

/-- An effect of `convert_documents`, in program order. -/
inductive ConvEvent where
  | mkdirOutput (dir : String)
  | convertAllCall (paths : List String)
  | exportWrite (dir : String) (filename : String) (content : Serialized)
  | mkdirImageDir (dir : String)
  | mediaEvent (ev : MediaEvent)
deriving DecidableEq, Repr

/-- Whether an event is an invocation of `doc_converter.convert_all`. -/
def isConvertAllCall : ConvEvent → Bool
  | ConvEvent.convertAllCall _ => true
  | _ => false

/-- Whether an event is an Exporter file write. -/
def isExportWrite : ConvEvent → Bool
  | ConvEvent.exportWrite _ _ _ => true
  | _ => false

/-- The body of `for result in conv_result:` (lines 93-152) for one
result: export the selected formats (writing into `Path(output_path)`),
build the timestamped image directory with the `/` join (which fails on a
`str` output path), create it if absent, then run the media loop.  The
trailing `found_table_or_picture` check only prints and `continue`s, so it
contributes no effect.  Returns the effects and the exception, if one was
raised. -/
def processResult (output_path : PyPathVal) (output_formats : List String)
    (fs : String → Bool) (now : DateTime) (result : ConvResult) :
    List ConvEvent × Option PyErr :=
  let doc_filename := result.fileStem
  let exportEvents := (export_selected_formats result output_formats).map
    (fun p => ConvEvent.exportWrite (pathOf output_path) p.1 p.2)
  match pathJoin output_path (image_subdir doc_filename now) with
  | Except.error e => (exportEvents, some e)
  | Except.ok image_dir =>
    let mkdirEvents :=
      if fs (pathOf image_dir) then ([] : List ConvEvent)
      else [ConvEvent.mkdirImageDir (pathOf image_dir)]
    let final := runMedia doc_filename (pathOf image_dir) initMediaState
      result.doc.elements
    (exportEvents ++ mkdirEvents ++ final.events.map ConvEvent.mediaEvent, none)

/-- Process the results of one `convert_all` batch in order, advancing the
`datetime.now()` clock once per result and stopping at the first
exception. -/
def runResults (output_path : PyPathVal) (output_formats : List String)
    (fs : String → Bool) (clock : Nat → DateTime) :
    Nat → List ConvResult → List ConvEvent × Nat × Option PyErr
  | tick, [] => ([], tick, none)
  | tick, r :: rs =>
    match processResult output_path output_formats fs (clock tick) r with
    | (evs, some e) => (evs, tick + 1, some e)
    | (evs, none) =>
      let rest := runResults output_path output_formats fs clock (tick + 1) rs
      (evs ++ rest.1, rest.2.1, rest.2.2)

/-- The outer `for input_path in input_paths:` loop (lines 85-152): per
iteration it tests `output_path.exists()` (raising on a `str`), creates
the output directory if absent, calls `doc_converter.convert_all` on ALL
input paths, and processes every result of that batch. -/
def convertLoop (convert_all : List String → List ConvResult)
    (fs : String → Bool) (clock : Nat → DateTime)
    (all_paths : List String) (output_path : PyPathVal)
    (output_formats : List String) :
    Nat → List String → List ConvEvent × Nat × Option PyErr
  | tick, [] => ([], tick, none)
  | tick, _ :: rest =>
    match pathExists fs output_path with
    | Except.error e => ([], tick, some e)
    | Except.ok ex =>
      let evs0 :=
        if ex then ([] : List ConvEvent)
        else [ConvEvent.mkdirOutput (pathOf output_path)]
      let batch := runResults output_path output_formats fs clock tick
        (convert_all all_paths)
      match batch.2.2 with
      | some e =>
          (evs0 ++ [ConvEvent.convertAllCall all_paths] ++ batch.1,
           batch.2.1, some e)
      | none =>
        let tail := convertLoop convert_all fs clock all_paths output_path
          output_formats batch.2.1 rest
        (evs0 ++ [ConvEvent.convertAllCall all_paths] ++ batch.1 ++ tail.1,
         tail.2.1, tail.2.2)

/-- The function `convert_documents(input_paths, output_path, output_formats)`: the
effects it performs and the exception it raises, if any.  The external
converter (`convert_all`), the filesystem `exists` oracle and the
`datetime.now()` clock are parameters. -/
def convert_documents (convert_all : List String → List ConvResult)
    (fs : String → Bool) (clock : Nat → DateTime)
    (input_paths : List String) (output_path : PyPathVal)
    (output_formats : List String) : List ConvEvent × Option PyErr :=
  let r := convertLoop convert_all fs clock input_paths output_path
    output_formats 0 input_paths
  (r.1, r.2.2)

/-- One entry of the `files` list read from `request.files`. -/
structure UploadedFile where
  filename : String
  content : String
deriving DecidableEq, Repr

/-- The parts of a POST /convert request the handler reads. -/
structure ConvertRequest where
  files : List UploadedFile
  formats : List String
  output_path_field : Option String
  jsonContentType : Bool
deriving DecidableEq, Repr

/-- The fixed staging directory (line 167). -/
def temp_dir : String := "temp_files"

/-- A filesystem write performed by the `convert` route. -/
inductive WriteEvent where
  | mkdirTemp
  | tempSave (path : String) (content : String)
  | convEvent (ev : ConvEvent)
deriving DecidableEq, Repr

/-- The staging loop (lines 171-174): each upload is saved to
`temp_files/<original filename>`, in request order. -/
def stagingEvents (files : List UploadedFile) : List WriteEvent :=
  files.map (fun f =>
    WriteEvent.tempSave (temp_dir ++ "/" ++ f.filename) f.content)

/-- The `input_paths` list the handler accumulates. -/
def input_paths_of (files : List UploadedFile) : List String :=
  files.map (fun f => temp_dir ++ "/" ++ f.filename)

/-- The responses the `convert` route can produce. -/
inductive HttpResponse where
  | badRequest (error : String)
  | jsonSuccess (message : String) (files : List String)
  | htmlSuccess (files : List String)
  | jsonError (error : String)
  | htmlError (error : String)
deriving DecidableEq, Repr

/-- The HTTP status code of each response form. -/
def statusOf : HttpResponse → Nat
  | HttpResponse.badRequest _ => 400
  | HttpResponse.jsonSuccess _ _ => 200
  | HttpResponse.htmlSuccess _ => 200
  | HttpResponse.jsonError _ => 500
  | HttpResponse.htmlError _ => 500

/-- The `convert` route (lines 154-196): validate, create the temp
directory and stage the uploads, call `convert_documents` with the
`output_path` form value still a `str`, then either list the produced
files (via the `os.walk` oracle `walkOutput`) or report the exception
with a 500, rendering JSON or HTML by content type. -/
def convertRoute (convert_all : List String → List ConvResult)
    (fs : String → Bool) (clock : Nat → DateTime)
    (walkOutput : String → List String) (req : ConvertRequest) :
    HttpResponse × List WriteEvent :=
  let output_path := req.output_path_field.getD "output"
  if req.files = [] ∨ req.formats = [] then
    (HttpResponse.badRequest "Files and formats are required", [])
  else
    let staged := WriteEvent.mkdirTemp :: stagingEvents req.files
    let conv := convert_documents convert_all fs clock
      (input_paths_of req.files) (PyPathVal.str output_path) req.formats
    match conv.2 with
    | some e =>
        ((if req.jsonContentType then HttpResponse.jsonError (pyErrMsg e)
          else HttpResponse.htmlError (pyErrMsg e)),
         staged ++ conv.1.map WriteEvent.convEvent)
    | none =>
        ((if req.jsonContentType then
            HttpResponse.jsonSuccess "Documents converted successfully"
              (walkOutput output_path)
          else HttpResponse.htmlSuccess (walkOutput output_path)),
         staged ++ conv.1.map WriteEvent.convEvent)

/-- Contents of a file on disk, by provenance. -/
inductive FileData where
  | textFile (s : String)
  | serializedFile (s : Serialized)
  | pngFile (s : String)
deriving DecidableEq, Repr

/-- Apply the file-creating writes of a trace to a store mapping paths to
contents (directory creations change no file). -/
def runWrites (store : String → Option FileData) :
    List WriteEvent → (String → Option FileData)
  | [] => store
  | WriteEvent.tempSave p c :: rest =>
      runWrites (fun q => if q = p then some (FileData.textFile c) else store q) rest
  | WriteEvent.convEvent (ConvEvent.exportWrite dir name s) :: rest =>
      runWrites (fun q => if q = dir ++ "/" ++ name
        then some (FileData.serializedFile s) else store q) rest
  | WriteEvent.convEvent (ConvEvent.mediaEvent (MediaEvent.saved f png)) :: rest =>
      runWrites (fun q => if q = f then some (FileData.pngFile png) else store q) rest
  | _ :: rest => runWrites store rest

/-- The file paths a trace writes (directory creations excluded). -/
def writtenPaths : List WriteEvent → List String
  | [] => []
  | WriteEvent.tempSave p _ :: rest => p :: writtenPaths rest
  | WriteEvent.convEvent (ConvEvent.exportWrite dir name _) :: rest =>
      (dir ++ "/" ++ name) :: writtenPaths rest
  | WriteEvent.convEvent (ConvEvent.mediaEvent (MediaEvent.saved f _)) :: rest =>
      f :: writtenPaths rest
  | _ :: rest => writtenPaths rest

/-- Route `GET /download/<filename>` (lines 199-202): serves `filename`
relative to the fixed directory `output` — not the `output_path` of the
request. -/
def download (store : String → Option FileData) (filename : String) :
    Option FileData :=
  store ("output" ++ "/" ++ filename)

/-- The content of the last upload in the list carrying the given
filename, if any: the specification of last-write-wins staging. -/
def lastContentFor (name : String) : List UploadedFile → Option String
  | [] => none
  | f :: fs =>
    match lastContentFor name fs with
    | some c => some c
    | none => if f.filename = name then some f.content else none

/-- Converter oracle used for concrete evaluations: one DOCX result with a
plain-text export available, regardless of the paths passed. -/
def oracleConvertAll : List String → List ConvResult := fun _ =>
  [{ fileStem := "doc"
     doc := { mdExport := "", txtExport := "converted text", dictExport := ""
              elements := [] } }]

/-- Filesystem oracle: nothing exists yet. -/
def oracleFs : String → Bool := fun _ => false

/-- Clock oracle: a fixed instant. -/
def oracleClock : Nat → DateTime := fun _ =>
  { year := 2026, month := 10, day := 12, hour := 9, minute := 30, second := 5 }

/-- Walk oracle for `os.walk`: the output directory is empty. -/
def oracleWalk : String → List String := fun _ => []

/-- The end-to-end request of the C1 scenario: one DOCX upload, formats
`["txt"]`, `output_path "out1"`, JSON content type. -/
def c1req : ConvertRequest :=
  { files := [{ filename := "doc.docx", content := "docxbytes" }]
    formats := ["txt"]
    output_path_field := some "out1"
    jsonContentType := true }

/-- Request used to witness C2: same shape as the C1 scenario. -/
def c2req : ConvertRequest :=
  { files := [{ filename := "doc.docx", content := "docxbytes" }]
    formats := ["txt"]
    output_path_field := some "out1"
    jsonContentType := true }

/-- Request with no uploads, used to witness C7. -/
def c7req : ConvertRequest :=
  { files := [], formats := ["md"], output_path_field := none
    jsonContentType := true }

/-- Request with two uploads sharing one filename, used to witness C9. -/
def c9req : ConvertRequest :=
  { files := [{ filename := "dup.docx", content := "first" },
              { filename := "dup.docx", content := "second" }]
    formats := ["md"], output_path_field := none, jsonContentType := true }

/-- Converter oracle returning two results, used for the C4
counterexample. -/
def c4ConvertAll : List String → List ConvResult := fun _ =>
  [{ fileStem := "a"
     doc := { mdExport := "", txtExport := "ta", dictExport := "", elements := [] } },
   { fileStem := "b"
     doc := { mdExport := "", txtExport := "tb", dictExport := "", elements := [] } }]

/-- Conversion result used to witness C8. -/
def c8result : ConvResult :=
  { fileStem := "report"
    doc := { mdExport := "m", txtExport := "t", dictExport := "d", elements := [] } }

/-- First conversion instant of the C8 witness. -/
def c8t1 : DateTime :=
  { year := 2026, month := 10, day := 12, hour := 9, minute := 30, second := 5 }

/-- Second conversion instant of the C8 witness, one second later. -/
def c8t2 : DateTime :=
  { year := 2026, month := 10, day := 12, hour := 9, minute := 30, second := 6 }

/-- Appending on the left of a `String` is cancellative. -/
theorem string_append_cancel_left {s a b : String} (h : s ++ a = s ++ b) :
    a = b := by
  cases s with
  | mk sd =>
    cases a with
    | mk ad =>
      cases b with
      | mk bd =>
        simp only [HAppend.hAppend, Append.append, String.append] at h
        injection h with h2
        exact congrArg String.mk (by simpa using h2)

/-- Distinct extensions give distinct file names for the same stem. -/
theorem stem_ext_ne (stem : String) {e₁ e₂ : String} (h : e₁ ≠ e₂) :
    stem ++ e₁ ≠ stem ++ e₂ := fun hc => h (string_append_cancel_left hc)

/-- C5: the Exporter writes exactly one file per requested tag among
md/txt/json/yaml, named `<stem>.<ext>`, with json serialized at indent 4
and yaml serialized with `allow_unicode` and without flow style; any other
tag produces no file. -/
theorem C5_exporter_exact (result : ConvResult) (formats : List String) :
    (∀ p : String × Serialized,
      p ∈ export_selected_formats result formats ↔
        (("md" ∈ formats ∧
            p = (result.fileStem ++ ".md", Serialized.markdown result.doc.mdExport)) ∨
         ("txt" ∈ formats ∧
            p = (result.fileStem ++ ".txt", Serialized.text result.doc.txtExport)) ∨
         ("json" ∈ formats ∧
            p = (result.fileStem ++ ".json", Serialized.jsonDump result.doc.dictExport 4)) ∨
         ("yaml" ∈ formats ∧
            p = (result.fileStem ++ ".yaml",
                 Serialized.yamlDump result.doc.dictExport false true))))
    ∧ (List.map Prod.fst (export_selected_formats result formats)).Nodup := by
  constructor
  · intro p
    simp only [export_selected_formats, List.mem_append]
    constructor
    · intro h
      rcases h with ((h | h) | h) | h <;>
        (split at h <;> simp_all)
    · intro h
      rcases h with ⟨hm, rfl⟩ | ⟨hm, rfl⟩ | ⟨hm, rfl⟩ | ⟨hm, rfl⟩ <;>
        simp [hm]
  · simp only [export_selected_formats]
    rcases Decidable.em ("md" ∈ formats) with h1 | h1 <;>
    rcases Decidable.em ("txt" ∈ formats) with h2 | h2 <;>
    rcases Decidable.em ("json" ∈ formats) with h3 | h3 <;>
    rcases Decidable.em ("yaml" ∈ formats) with h4 | h4 <;>
      simp [h1, h2, h3, h4, List.nodup_cons, stem_ext_ne,
        stem_ext_ne result.fileStem (by decide : (".md" : String) ≠ ".txt")]

theorem processElement_char (dn dir : String) (st : MediaState) (e : Element) :
    (processElement dn dir st e).table_counter
        = st.table_counter + (if tableElem e then 1 else 0)
    ∧ (processElement dn dir st e).picture_counter
        = st.picture_counter + (if pictureElem e then 1 else 0)
    ∧ (processElement dn dir st e).events
        = st.events ++ headEvents dn dir st.table_counter st.picture_counter e := by
  rcases e with ⟨k, img⟩
  cases k <;> cases img <;>
    simp [processElement, headEvents, tableElem, pictureElem]

theorem specEventsAt_zero (dn dir : String) (tc pc : Nat) (e : Element)
    (es : List Element) :
    specEventsAt dn dir tc pc (e :: es) 0 = headEvents dn dir tc pc e := by
  rcases e with ⟨k, img⟩
  cases k <;> cases img <;>
    simp [specEventsAt, headEvents, tableElem, pictureElem, List.countP_cons]

theorem specEventsAt_succ (dn dir : String) (tc pc : Nat) (e : Element)
    (es : List Element) (i : Nat) :
    specEventsAt dn dir tc pc (e :: es) (i + 1) =
      specEventsAt dn dir (tc + (if tableElem e then 1 else 0))
        (pc + (if pictureElem e then 1 else 0)) es i := by
  simp only [specEventsAt, List.getElem?_cons_succ, List.take_succ_cons,
    List.countP_cons]
  cases es[i]? with
  | none => rfl
  | some x =>
    simp only []
    have ht : tc + ((es.take (i + 1)).countP tableElem
          + (if tableElem e then 1 else 0))
        = tc + (if tableElem e then 1 else 0) + (es.take (i + 1)).countP tableElem := by
      omega
    have hp : pc + ((es.take (i + 1)).countP pictureElem
          + (if pictureElem e then 1 else 0))
        = pc + (if pictureElem e then 1 else 0) + (es.take (i + 1)).countP pictureElem := by
      omega
    rw [ht, hp]

/-- The events of the media loop are exactly the per-position
specification events, concatenated in document order. -/
theorem runMedia_events (dn dir : String) :
    ∀ (es : List Element) (st : MediaState),
      (runMedia dn dir st es).events =
        st.events ++ (List.range es.length).flatMap
          (specEventsAt dn dir st.table_counter st.picture_counter es) := by
  intro es
  induction es with
  | nil => intro st; simp [runMedia]
  | cons e es ih =>
    intro st
    obtain ⟨hc1, hc2, hev⟩ := processElement_char dn dir st e
    have := ih (processElement dn dir st e)
    rw [hc1, hc2, hev] at this
    show (runMedia dn dir (processElement dn dir st e) es).events = _
    rw [this, List.length_cons, List.range_succ_eq_map, List.flatMap_cons,
      specEventsAt_zero, List.flatMap_map]
    simp only [specEventsAt_succ, List.append_assoc, Function.comp]

theorem runMedia_counters (dn dir : String) :
    ∀ (es : List Element) (st : MediaState),
      (runMedia dn dir st es).table_counter
          = st.table_counter + es.countP tableElem
      ∧ (runMedia dn dir st es).picture_counter
          = st.picture_counter + es.countP pictureElem := by
  intro es
  induction es with
  | nil => intro st; simp [runMedia]
  | cons e es ih =>
    intro st
    obtain ⟨hc1, hc2, _⟩ := processElement_char dn dir st e
    obtain ⟨ih1, ih2⟩ := ih (processElement dn dir st e)
    refine ⟨?_, ?_⟩ <;>
      simp only [runMedia, ih1, ih2, hc1, hc2, List.countP_cons] <;> omega

theorem runMedia_event_counts (dn dir : String) :
    ∀ (es : List Element) (st : MediaState),
      ((runMedia dn dir st es).events.countP isSavedEvent
          = st.events.countP isSavedEvent + es.countP savedElem)
      ∧ ((runMedia dn dir st es).events.countP isWarningEvent
          = st.events.countP isWarningEvent + es.countP skippedElem) := by
  intro es
  induction es with
  | nil => intro st; simp [runMedia]
  | cons e es ih =>
    intro st
    obtain ⟨_, _, hev⟩ := processElement_char dn dir st e
    obtain ⟨ih1, ih2⟩ := ih (processElement dn dir st e)
    rw [hev] at ih1 ih2
    refine ⟨?_, ?_⟩ <;>
      [rw [show runMedia dn dir st (e :: es)
            = runMedia dn dir (processElement dn dir st e) es from rfl, ih1];
       rw [show runMedia dn dir st (e :: es)
            = runMedia dn dir (processElement dn dir st e) es from rfl, ih2]] <;>
      rcases e with ⟨k, img⟩ <;> cases k <;> cases img <;>
      simp [headEvents, savedElem, skippedElem, tableElem, pictureElem,
        isSavedEvent, isWarningEvent, List.countP_cons, List.countP_append] <;>
      omega

/-- C6: the missing-image policy is non-fatal: every table or picture
element whose `get_image` yields no image contributes exactly one warning
and no PNG write, and every table or picture element that does yield an
image is still saved — the number of PNG writes equals the number of
table/picture elements with an image, and the number of warnings equals
the number of table/picture elements without one, over the whole element
list (the loop never aborts). -/
theorem C6_media_nonfatal (doc_filename image_dir : String)
    (es : List Element) :
    ((runMedia doc_filename image_dir initMediaState es).events.countP isSavedEvent
        = es.countP savedElem)
    ∧ ((runMedia doc_filename image_dir initMediaState es).events.countP isWarningEvent
        = es.countP skippedElem) := by
  have h := runMedia_event_counts doc_filename image_dir es initMediaState
  simpa [initMediaState] using h

/-- C10: the effect trace of the media loop is exactly the per-position
specification: the element at position `i`, if a table (resp. picture),
is saved as `<image_dir>/<stem>-table-<n>.png` (resp. `-picture-`) with
`n` the number of elements of that kind among the first `i + 1` elements —
a 1-based per-kind counter in document order that also counts elements
whose rendering fails (with a warning instead of a save) — inside the
directory `<output_path>/<stem>_<timestamp>`; the final counters equal the
per-kind element counts. -/
theorem C10_media_naming (output_path doc_filename : String)
    (now : DateTime) (es : List Element) :
    ((runMedia doc_filename (output_path ++ "/" ++ image_subdir doc_filename now)
        initMediaState es).events =
      (List.range es.length).flatMap
        (specEventsAt doc_filename
          (output_path ++ "/" ++ image_subdir doc_filename now) 0 0 es))
    ∧ ((runMedia doc_filename (output_path ++ "/" ++ image_subdir doc_filename now)
        initMediaState es).table_counter = es.countP tableElem)
    ∧ ((runMedia doc_filename (output_path ++ "/" ++ image_subdir doc_filename now)
        initMediaState es).picture_counter = es.countP pictureElem) := by
  refine ⟨?_, ?_, ?_⟩
  · simpa [initMediaState] using
      runMedia_events doc_filename
        (output_path ++ "/" ++ image_subdir doc_filename now) es initMediaState
  · simpa [initMediaState] using
      (runMedia_counters doc_filename
        (output_path ++ "/" ++ image_subdir doc_filename now) es initMediaState).1
  · simpa [initMediaState] using
      (runMedia_counters doc_filename
        (output_path ++ "/" ++ image_subdir doc_filename now) es initMediaState).2

/-- C3 counterexample: the claim says IMAGE (like PDF) is configured with
page and picture image generation enabled at scale 2.0, but the IMAGE
entry passes no `pipeline_options` at all: the claimed property is false
at `InputFormat.image`. -/
theorem C3_counterexample :
    ¬ ((format_options InputFormat.image).pipeline_cls
          = PipelineCls.standardPdfPipeline
        ∧ (format_options InputFormat.image).pipeline_options_arg
          = some { images_scale := 2
                   generate_page_images := true
                   generate_picture_images := true }) := by
  decide

/-- C3 amended: each of XLSX, DOCX, PPTX, MD, ASCIIDOC, HTML uses the
simple non-paginated pipeline with its format-specific backend; PDF uses
the standard paginated pipeline with page and picture image generation
enabled at 2.0x scale; IMAGE uses the standard paginated pipeline with the
docling-parse backend but is passed no explicit pipeline options (the
image-generation settings apply only to PDF). -/
theorem C3_config_amended :
    format_options InputFormat.xlsx
        = { pipeline_cls := PipelineCls.simplePipeline
            backend := BackendCls.msExcelDocumentBackend
            pipeline_options_arg := none }
    ∧ format_options InputFormat.docx
        = { pipeline_cls := PipelineCls.simplePipeline
            backend := BackendCls.msWordDocumentBackend
            pipeline_options_arg := none }
    ∧ format_options InputFormat.pptx
        = { pipeline_cls := PipelineCls.simplePipeline
            backend := BackendCls.msPowerpointDocumentBackend
            pipeline_options_arg := none }
    ∧ format_options InputFormat.md
        = { pipeline_cls := PipelineCls.simplePipeline
            backend := BackendCls.markdownDocumentBackend
            pipeline_options_arg := none }
    ∧ format_options InputFormat.asciidoc
        = { pipeline_cls := PipelineCls.simplePipeline
            backend := BackendCls.asciiDocBackend
            pipeline_options_arg := none }
    ∧ format_options InputFormat.html
        = { pipeline_cls := PipelineCls.simplePipeline
            backend := BackendCls.htmlDocumentBackend
            pipeline_options_arg := none }
    ∧ format_options InputFormat.pdf
        = { pipeline_cls := PipelineCls.standardPdfPipeline
            backend := BackendCls.doclingParseDocumentBackend
            pipeline_options_arg :=
              some { images_scale := 2
                     generate_page_images := true
                     generate_picture_images := true } }
    ∧ format_options InputFormat.image
        = { pipeline_cls := PipelineCls.standardPdfPipeline
            backend := BackendCls.doclingParseDocumentBackend
            pipeline_options_arg := none } := by
  refine ⟨rfl, rfl, rfl, rfl, rfl, rfl, ?_, rfl⟩
  rfl

/-- With a `str` output path and at least one input path,
`convert_documents` raises the `AttributeError` at `output_path.exists()`
on its first iteration: error, empty effect trace. -/
theorem convert_documents_str_fails (ca : List String → List ConvResult)
    (fsE : String → Bool) (clk : Nat → DateTime) (p : String)
    (ps : List String) (s : String) (fmts : List String) :
    convert_documents ca fsE clk (p :: ps) (PyPathVal.str s) fmts
      = ([], some (PyErr.attributeError "str object has no attribute exists")) :=
  rfl

/-- C2: every POST /convert request with non-empty files and formats hands
`convert_documents` the `output_path` form value as a plain `str`; the
`.exists()` call on it raises `AttributeError` before any conversion or
export effect, the route answers with a 500-equivalent error response, and
the only writes performed are the temp-directory creation and the staged
uploads under `temp_files`. -/
theorem C2_str_output_path_500 (ca : List String → List ConvResult)
    (fsE : String → Bool) (clk : Nat → DateTime)
    (walk : String → List String) (req : ConvertRequest)
    (h1 : req.files ≠ []) (h2 : req.formats ≠ []) :
    convert_documents ca fsE clk (input_paths_of req.files)
        (PyPathVal.str (req.output_path_field.getD "output")) req.formats
      = ([], some (PyErr.attributeError "str object has no attribute exists"))
    ∧ statusOf (convertRoute ca fsE clk walk req).1 = 500
    ∧ (convertRoute ca fsE clk walk req).2
      = WriteEvent.mkdirTemp :: stagingEvents req.files := by
  have hconv : convert_documents ca fsE clk (input_paths_of req.files)
      (PyPathVal.str (req.output_path_field.getD "output")) req.formats
      = ([], some (PyErr.attributeError "str object has no attribute exists")) := by
    obtain ⟨f, rest, hf⟩ := List.exists_cons_of_ne_nil h1
    rw [hf]
    rfl
  refine ⟨hconv, ?_, ?_⟩ <;>
    simp only [convertRoute, h1, h2, hconv] <;>
    simp [statusOf] <;>
    cases req.jsonContentType <;> simp [statusOf]

/-- C2 witness: the concrete request `c2req` has non-empty files and
formats and receives a 500. -/
theorem C2_str_output_path_500_witness :
    c2req.files ≠ [] ∧ c2req.formats ≠ [] ∧
      statusOf (convertRoute oracleConvertAll oracleFs oracleClock oracleWalk
        c2req).1 = 500 :=
  ⟨by decide, by decide,
   (C2_str_output_path_500 oracleConvertAll oracleFs oracleClock oracleWalk
     c2req (by decide) (by decide)).2.1⟩

/-- C7: a request with empty files or empty formats gets the 400
validation response, performs no write at all (in particular none outside
the temp directory) and attempts no conversion. -/
theorem C7_validation (ca : List String → List ConvResult)
    (fsE : String → Bool) (clk : Nat → DateTime)
    (walk : String → List String) (req : ConvertRequest)
    (h : req.files = [] ∨ req.formats = []) :
    convertRoute ca fsE clk walk req
      = (HttpResponse.badRequest "Files and formats are required", [])
    ∧ statusOf (convertRoute ca fsE clk walk req).1 = 400
    ∧ writtenPaths (convertRoute ca fsE clk walk req).2 = [] := by
  simp only [convertRoute]
  rw [if_pos h]
  exact ⟨rfl, rfl, rfl⟩

/-- C7 witness: the concrete request `c7req` has no files and gets the
400 validation response with an empty write trace. -/
theorem C7_validation_witness :
    (c7req.files = [] ∨ c7req.formats = []) ∧
      convertRoute oracleConvertAll oracleFs oracleClock oracleWalk c7req
        = (HttpResponse.badRequest "Files and formats are required", []) :=
  ⟨Or.inl rfl,
   (C7_validation oracleConvertAll oracleFs oracleClock oracleWalk c7req
     (Or.inl rfl)).1⟩

/-- C1 (code-bug evidence): for the end-to-end request of the claim — one
DOCX upload, formats `["txt"]`, `output_path "out1"` — even with a
converter oracle whose result has a plain-text export available, the route
answers 500 with the `AttributeError` message instead of listing
`doc.txt`; the only file written is the staged upload under `temp_files`,
and `GET /download/doc.txt` finds nothing. -/
theorem C1_end_to_end_fails :
    (convertRoute oracleConvertAll oracleFs oracleClock oracleWalk c1req).1
        = HttpResponse.jsonError "str object has no attribute exists"
    ∧ statusOf
        (convertRoute oracleConvertAll oracleFs oracleClock oracleWalk c1req).1
        = 500
    ∧ writtenPaths
        (convertRoute oracleConvertAll oracleFs oracleClock oracleWalk c1req).2
        = ["temp_files" ++ "/" ++ "doc.docx"]
    ∧ download
        (runWrites (fun _ => none)
          (convertRoute oracleConvertAll oracleFs oracleClock oracleWalk c1req).2)
        "doc.txt" = none := by
  decide

/-- Replaying the staging writes: the store at `temp_files/<name>` ends up
holding the content of the last upload named `name`, or keeps its prior
value when no upload has that name. -/
theorem staging_lookup (name : String) :
    ∀ (files : List UploadedFile) (store : String → Option FileData),
      runWrites store (stagingEvents files) (temp_dir ++ "/" ++ name)
        = (match lastContentFor name files with
           | some c => some (FileData.textFile c)
           | none => store (temp_dir ++ "/" ++ name)) := by
  intro files
  induction files with
  | nil => intro store; rfl
  | cons f fsx ih =>
    intro store
    simp only [stagingEvents, List.map_cons, runWrites, lastContentFor]
    have step := ih (fun q =>
      if q = temp_dir ++ "/" ++ f.filename
      then some (FileData.textFile f.content) else store q)
    simp only [stagingEvents] at step
    rw [step]
    cases hl : lastContentFor name fsx with
    | some c => simp
    | none =>
      by_cases hfn : f.filename = name
      · rw [hfn]
        simp
      · have hne : temp_dir ++ "/" ++ name ≠ temp_dir ++ "/" ++ f.filename := by
          intro hcc
          exact hfn (string_append_cancel_left hcc).symm
        simp [hne, hfn]

/-- C9: on a validated request, the write trace of the route is the temp
directory creation, then one staged write per upload to
`temp_files/<original filename>` in request order, then the effects of
`convert_documents`; replaying the staging writes, a shared filename ends
up holding the content of the LAST upload with that name (last write
wins, no deduplication). -/
theorem C9_staging_last_write_wins (ca : List String → List ConvResult)
    (fsE : String → Bool) (clk : Nat → DateTime)
    (walk : String → List String) (req : ConvertRequest)
    (h1 : req.files ≠ []) (h2 : req.formats ≠ []) :
    (convertRoute ca fsE clk walk req).2
        = WriteEvent.mkdirTemp :: stagingEvents req.files
          ++ (convert_documents ca fsE clk (input_paths_of req.files)
              (PyPathVal.str (req.output_path_field.getD "output"))
              req.formats).1.map WriteEvent.convEvent
    ∧ ∀ name : String,
        runWrites (fun _ => none)
          (WriteEvent.mkdirTemp :: stagingEvents req.files)
          (temp_dir ++ "/" ++ name)
        = (lastContentFor name req.files).map FileData.textFile := by
  constructor
  · simp only [convertRoute, h1, h2]
    simp only [eq_self_iff_true, or_self, if_false, ite_false]
    cases hconv : (convert_documents ca fsE clk (input_paths_of req.files)
        (PyPathVal.str (req.output_path_field.getD "output")) req.formats).2 <;>
      simp [hconv]
  · intro name
    have h := staging_lookup name req.files (fun _ => none)
    show runWrites (fun _ => none) (stagingEvents req.files)
        (temp_dir ++ "/" ++ name) = _
    rw [h]
    cases lastContentFor name req.files <;> simp

/-- C9 witness: two uploads named `dup.docx`; the staged file holds the
content of the second upload. -/
theorem C9_staging_last_write_wins_witness :
    c9req.files ≠ [] ∧ c9req.formats ≠ [] ∧
      runWrites (fun _ => none)
        (WriteEvent.mkdirTemp :: stagingEvents c9req.files)
        (temp_dir ++ "/" ++ "dup.docx")
      = (lastContentFor "dup.docx" c9req.files).map FileData.textFile :=
  ⟨by decide, by decide,
   (C9_staging_last_write_wins oracleConvertAll oracleFs oracleClock
     oracleWalk c9req (by decide) (by decide)).2 "dup.docx"⟩

/-- With a `Path` output path, processing one result raises nothing,
performs no `convert_all` call, and performs exactly one export write per
file the Exporter produces. -/
theorem processResult_path (o : String) (fmts : List String)
    (fsE : String → Bool) (now : DateTime) (r : ConvResult) :
    (processResult (PyPathVal.path o) fmts fsE now r).2 = none
    ∧ (processResult (PyPathVal.path o) fmts fsE now r).1.countP isConvertAllCall = 0
    ∧ (processResult (PyPathVal.path o) fmts fsE now r).1.countP isExportWrite
        = (export_selected_formats r fmts).length := by
  have hx : (isExportWrite ∘ fun p : String × Serialized =>
      ConvEvent.exportWrite o p.1 p.2) = fun _ => true := by
    funext p; rfl
  have hm : (isExportWrite ∘ ConvEvent.mediaEvent) = fun _ => false := by
    funext ev; rfl
  have hc1 : (isConvertAllCall ∘ fun p : String × Serialized =>
      ConvEvent.exportWrite o p.1 p.2) = fun _ => false := by
    funext p; rfl
  have hc2 : (isConvertAllCall ∘ ConvEvent.mediaEvent) = fun _ => false := by
    funext ev; rfl
  refine ⟨?_, ?_, ?_⟩ <;>
    simp only [processResult, pathJoin, pathOf] <;>
    split <;>
    simp [List.countP_append, List.countP_map, hx, hm, hc1, hc2,
      isConvertAllCall, isExportWrite]

/-- Batch processing with a `Path` output path: no exception, no
`convert_all` calls among the per-result effects, and the export writes
sum over the results. -/
theorem runResults_path (o : String) (fmts : List String)
    (fsE : String → Bool) (clk : Nat → DateTime) :
    ∀ (rs : List ConvResult) (tick : Nat),
      (runResults (PyPathVal.path o) fmts fsE clk tick rs).2.2 = none
      ∧ (runResults (PyPathVal.path o) fmts fsE clk tick rs).1.countP
          isConvertAllCall = 0
      ∧ (runResults (PyPathVal.path o) fmts fsE clk tick rs).1.countP
          isExportWrite
        = (rs.map (fun r => (export_selected_formats r fmts).length)).sum := by
  intro rs
  induction rs with
  | nil => intro tick; exact ⟨rfl, rfl, rfl⟩
  | cons r rs ih =>
    intro tick
    obtain ⟨hp1, hp2, hp3⟩ := processResult_path o fmts fsE (clk tick) r
    obtain ⟨ih1, ih2, ih3⟩ := ih (tick + 1)
    rcases hp : processResult (PyPathVal.path o) fmts fsE (clk tick) r
      with ⟨evs, err⟩
    rw [hp] at hp1 hp2 hp3
    simp only at hp1
    subst hp1
    refine ⟨?_, ?_, ?_⟩ <;>
      simp [runResults, hp, List.countP_append, hp2, hp3, ih1, ih2, ih3]

/-- The outer loop with a `Path` output path: one `convert_all` call per
pending input path, each over all input paths; export writes multiply
accordingly; no exception. -/
theorem convertLoop_path (ca : List String → List ConvResult)
    (fsE : String → Bool) (clk : Nat → DateTime) (fmts : List String)
    (o : String) (all_paths : List String) :
    ∀ (pending : List String) (tick : Nat),
      (convertLoop ca fsE clk all_paths (PyPathVal.path o) fmts tick
          pending).2.2 = none
      ∧ (convertLoop ca fsE clk all_paths (PyPathVal.path o) fmts tick
          pending).1.countP isConvertAllCall = pending.length
      ∧ (convertLoop ca fsE clk all_paths (PyPathVal.path o) fmts tick
          pending).1.countP isExportWrite
        = pending.length
            * ((ca all_paths).map
                (fun r => (export_selected_formats r fmts).length)).sum
      ∧ ∀ ev ∈ (convertLoop ca fsE clk all_paths (PyPathVal.path o) fmts tick
          pending).1, isConvertAllCall ev = true
            → ev = ConvEvent.convertAllCall all_paths := by
  intro pending
  induction pending with
  | nil =>
    intro tick
    exact ⟨rfl, rfl, by simp [convertLoop], by intro ev hev; cases hev⟩
  | cons p rest ih =>
    intro tick
    obtain ⟨hb1, hb2, hb3⟩ := runResults_path o fmts fsE clk (ca all_paths) tick
    obtain ⟨ih1, ih2, ih3, ih4⟩ :=
      ih (runResults (PyPathVal.path o) fmts fsE clk tick (ca all_paths)).2.1
    have htrace : (convertLoop ca fsE clk all_paths (PyPathVal.path o) fmts
        tick (p :: rest)).1
        = (if fsE o then ([] : List ConvEvent)
            else [ConvEvent.mkdirOutput o])
          ++ [ConvEvent.convertAllCall all_paths]
          ++ (runResults (PyPathVal.path o) fmts fsE clk tick (ca all_paths)).1
          ++ (convertLoop ca fsE clk all_paths (PyPathVal.path o) fmts
              (runResults (PyPathVal.path o) fmts fsE clk tick
                (ca all_paths)).2.1 rest).1 := by
      simp [convertLoop, pathExists, pathOf, hb1]
    have hevs0c : (if fsE o then ([] : List ConvEvent)
        else [ConvEvent.mkdirOutput o]).countP isConvertAllCall = 0 := by
      split <;> simp [isConvertAllCall]
    have hevs0e : (if fsE o then ([] : List ConvEvent)
        else [ConvEvent.mkdirOutput o]).countP isExportWrite = 0 := by
      split <;> simp [isExportWrite]
    refine ⟨?_, ?_, ?_, ?_⟩
    · simp [convertLoop, pathExists, hb1, ih1]
    · rw [htrace]
      simp [List.countP_append, hb2, ih2, hevs0c, isConvertAllCall]
    · rw [htrace]
      simp [List.countP_append, hb3, ih3, hevs0e, isExportWrite, Nat.succ_mul]
      ring
    · intro ev hev hca
      rw [htrace] at hev
      have hbatchall : ∀ a ∈ (runResults (PyPathVal.path o) fmts fsE clk tick
          (ca all_paths)).1, ¬ isConvertAllCall a = true := by
        rw [← List.countP_eq_zero]
        exact hb2
      rcases List.mem_append.mp hev with h14 | h4
      · rcases List.mem_append.mp h14 with h12 | h3
        · rcases List.mem_append.mp h12 with h5 | h6
          · have : isConvertAllCall ev = false := by
              by_cases hx : fsE o
              · rw [if_pos hx] at h5
                cases h5
              · rw [if_neg hx] at h5
                rw [List.mem_singleton.mp h5]
                rfl
            rw [this] at hca
            cases hca
          · simpa using h6
        · exact absurd hca (hbatchall ev h3)
      · exact ih4 ev h4 hca

/-- C4 counterexample: with two input paths (and a `Path` output so the
loop is actually reached), `convert_all` is invoked twice — once per input
path — not exactly once as the claim states. -/
theorem C4_counterexample :
    (convert_documents c4ConvertAll oracleFs oracleClock
        ["temp_files" ++ "/" ++ "a.docx", "temp_files" ++ "/" ++ "b.docx"]
        (PyPathVal.path "out") ["txt"]).1.countP isConvertAllCall = 2
    ∧ ¬ (convert_documents c4ConvertAll oracleFs oracleClock
        ["temp_files" ++ "/" ++ "a.docx", "temp_files" ++ "/" ++ "b.docx"]
        (PyPathVal.path "out") ["txt"]).1.countP isConvertAllCall = 1 := by
  decide

/-- C4 amended: `convert_documents` invokes `convert_all` once per input
path — `n` times for `n` input paths, each invocation over ALL input
paths — and the results of every invocation are each exported (Exporter writes
sum over results, multiplied by `n`), so each document is converted and
exported once per input path, not once per request; no exception is
raised when the output path is a `Path`. -/
theorem C4_batch_per_path (ca : List String → List ConvResult)
    (fsE : String → Bool) (clk : Nat → DateTime) (fmts : List String)
    (o : String) (ips : List String) :
    (convert_documents ca fsE clk ips (PyPathVal.path o) fmts).1.countP
        isConvertAllCall = ips.length
    ∧ (convert_documents ca fsE clk ips (PyPathVal.path o) fmts).2 = none
    ∧ (convert_documents ca fsE clk ips (PyPathVal.path o) fmts).1.countP
        isExportWrite
      = ips.length
          * ((ca ips).map (fun r => (export_selected_formats r fmts).length)).sum
    ∧ ∀ ev ∈ (convert_documents ca fsE clk ips (PyPathVal.path o) fmts).1,
        isConvertAllCall ev = true → ev = ConvEvent.convertAllCall ips := by
  obtain ⟨h1, h2, h3, h4⟩ := convertLoop_path ca fsE clk fmts o ips ips 0
  exact ⟨h2, h1, h3, h4⟩

/-- C4 witness: at two concrete input paths the amended count is 2 and
each recorded batch call carries both paths. -/
theorem C4_batch_per_path_witness :
    (convert_documents c4ConvertAll oracleFs oracleClock
        ["temp_files" ++ "/" ++ "a.docx", "temp_files" ++ "/" ++ "b.docx"]
        (PyPathVal.path "out") ["txt"]).1.countP isConvertAllCall
      = (["temp_files" ++ "/" ++ "a.docx", "temp_files" ++ "/" ++ "b.docx"]
          : List String).length :=
  (C4_batch_per_path c4ConvertAll oracleFs oracleClock ["txt"] "out"
    ["temp_files" ++ "/" ++ "a.docx", "temp_files" ++ "/" ++ "b.docx"]).1

/-- The export writes of one result do not depend on the conversion
instant: filtering the per-result effects to Exporter writes yields the
same file names and contents whatever `datetime.now()` returned. -/
theorem processResult_exports (o : String) (fmts : List String)
    (fsE : String → Bool) (now : DateTime) (r : ConvResult) :
    (processResult (PyPathVal.path o) fmts fsE now r).1.filter isExportWrite
      = (export_selected_formats r fmts).map
          (fun p => ConvEvent.exportWrite o p.1 p.2) := by
  have hx : (isExportWrite ∘ fun p : String × Serialized =>
      ConvEvent.exportWrite o p.1 p.2) = fun _ => true := by
    funext p; rfl
  have hm : (isExportWrite ∘ ConvEvent.mediaEvent) = fun _ => false := by
    funext ev; rfl
  simp only [processResult, pathJoin, pathOf]
  split <;>
    simp [List.filter_append, List.filter_map, hx, hm, isExportWrite]

/-- C8 counterexample: subdirectory names are distinguished only by a
second-granularity timestamp, so two conversions of the same file are not
always given distinct image subdirectories — at equal `%Y-%m-%d_%H%M%S`
instants the names coincide. -/
theorem C8_counterexample :
    ¬ (∀ t₁ t₂ : DateTime,
        image_subdir "report" t₁ ≠ image_subdir "report" t₂) := by
  intro h
  exact h
    { year := 2026, month := 10, day := 12, hour := 9, minute := 30, second := 5 }
    { year := 2026, month := 10, day := 12, hour := 9, minute := 30, second := 5 }
    rfl

/-- C8 amended: converting the same input twice with the same formats to
the same output directory issues the Exporter writes under identical
names both times (overwrite in place), and the two image subdirectory
names differ whenever the formatted conversion timestamps differ — but
conversions falling in the same second share one subdirectory name. -/
theorem C8_overwrite_and_subdirs (o : String) (fmts : List String)
    (fsE : String → Bool) (result : ConvResult) (t₁ t₂ : DateTime)
    (h : timestampPart t₁ ≠ timestampPart t₂) :
    ((processResult (PyPathVal.path o) fmts fsE t₁ result).1.filter isExportWrite
      = (processResult (PyPathVal.path o) fmts fsE t₂ result).1.filter isExportWrite)
    ∧ image_subdir result.fileStem t₁ ≠ image_subdir result.fileStem t₂ := by
  constructor
  · rw [processResult_exports, processResult_exports]
  · exact stem_ext_ne (result.fileStem ++ "_") h

/-- C8 witness: one second apart, the export-write traces coincide and
the subdirectory names differ. -/
theorem C8_overwrite_and_subdirs_witness :
    timestampPart c8t1 ≠ timestampPart c8t2 ∧
      image_subdir c8result.fileStem c8t1 ≠ image_subdir c8result.fileStem c8t2 :=
  ⟨by decide,
   (C8_overwrite_and_subdirs "out" ["md"] oracleFs c8result c8t1 c8t2
     (by decide)).2⟩

end DoclingApp
